import Mathlib

/-!
Verification of the wb-api-formuli-python metrics engine, report aggregator
and reconciliation comparator against its specification.

Python floats are modelled as rationals (ℚ), Python ints as ℤ. Fallible or
skipping control flow is modelled with Option/Except. Each embedded
definition mirrors one function of the source tree, keeping its name.
-/

namespace WB

/-- Manual input data, from `ManualInputData` in src/models/product.py.
Field defaults mirror the dataclass defaults. -/
structure ManualInputData where
  cost_per_unit : ℚ := 0
  self_purchase_count : ℤ := 0
  self_purchase_cost : ℚ := 0
  giveaway_count : ℤ := 0
  giveaway_cost : ℚ := 0
  marketing_cost : ℚ := 0
deriving Repr, DecidableEq

/-- Product record, from `Product` in src/models/product.py. -/
structure Product where
  nm_id : ℤ
  product_name : String := ""
  deliveries : ℤ := 0
  sales : ℤ := 0
  returns : ℤ := 0
  refusals : ℤ := 0
  sales_amount_before_spp : ℚ := 0
  sales_amount_after_spp : ℚ := 0
  returns_amount : ℚ := 0
  logistics_cost : ℚ := 0
  storage_cost : ℚ := 0
  acceptance_cost : ℚ := 0
  penalty_cost : ℚ := 0
  surcharges : ℚ := 0
  commission_with_spp : ℚ := 0
  commission_without_spp : ℚ := 0
  drr_cost : ℚ := 0
  manual_data : ManualInputData := {}
deriving Repr, DecidableEq

/-- Derived property `Product.net_sales` (src/models/product.py). -/
def Product.net_sales (p : Product) : ℤ :=
  p.sales - p.returns - p.manual_data.self_purchase_count

/-- Derived property `Product.percent_refusals` (src/models/product.py):
`(refusals / deliveries) * 100`, `0.0` when `deliveries == 0`. -/
def Product.percent_refusals (p : Product) : ℚ :=
  if p.deliveries = 0 then 0 else (p.refusals : ℚ) / (p.deliveries : ℚ) * 100

/-- Derived property `Product.percent_returns` (src/models/product.py):
`(returns / sales) * 100`, `0.0` when `sales == 0`. -/
def Product.percent_returns (p : Product) : ℚ :=
  if p.sales = 0 then 0 else (p.returns : ℚ) / (p.sales : ℚ) * 100

namespace Calculator

/-- COGS, from `Calculator.calculate_cogs` (src/analyzer/calculator.py). -/
def calculate_cogs (p : Product) : ℚ :=
  let net_sold : ℤ :=
    p.sales - p.returns - p.manual_data.self_purchase_count - p.manual_data.giveaway_count
  (net_sold : ℚ) * p.manual_data.cost_per_unit + p.manual_data.giveaway_cost

/-- Gross profit, from `Calculator.calculate_gross_profit`. -/
def calculate_gross_profit (p : Product) (cogs : ℚ) : ℚ :=
  p.sales_amount_after_spp - cogs

/-- Total expenses, from `Calculator.calculate_total_expenses`. -/
def calculate_total_expenses (p : Product) : ℚ :=
  p.logistics_cost + p.storage_cost + p.penalty_cost + p.acceptance_cost
    + p.commission_with_spp + p.drr_cost + p.manual_data.marketing_cost
    - p.surcharges

/-- Net profit, from `Calculator.calculate_net_profit`. -/
def calculate_net_profit (gross_profit total_expenses : ℚ) : ℚ :=
  gross_profit - total_expenses

/-- Profit margin percentage, from `Calculator.calculate_profit_margin`. -/
def calculate_profit_margin (gross_profit revenue : ℚ) : ℚ :=
  if revenue = 0 then 0 else gross_profit / revenue * 100

/-- ROI percentage, from `Calculator.calculate_roi`. -/
def calculate_roi (net_profit cogs : ℚ) : ℚ :=
  if cogs = 0 then 0 else net_profit / cogs * 100

/-- Average check, from `Calculator.calculate_avg_check` (the `sales`
argument is a Python int). -/
def calculate_avg_check (revenue : ℚ) (sales : ℤ) : ℚ :=
  if sales = 0 then 0 else revenue / (sales : ℚ)

end Calculator

/-- Computed metrics record, from `ProductMetrics` in src/models/product.py. -/
structure ProductMetrics where
  product : Product
  cogs : ℚ := 0
  gross_profit : ℚ := 0
  total_expenses : ℚ := 0
  net_profit : ℚ := 0
  profit_margin_percent : ℚ := 0
  roi_percent : ℚ := 0
  avg_check : ℚ := 0
deriving Repr, DecidableEq

/-- Orchestration, from `Calculator.calculate_all_metrics`. -/
def Calculator.calculate_all_metrics (p : Product) : ProductMetrics :=
  let cogs := Calculator.calculate_cogs p
  let gross_profit := Calculator.calculate_gross_profit p cogs
  let total_expenses := Calculator.calculate_total_expenses p
  let net_profit := Calculator.calculate_net_profit gross_profit total_expenses
  { product := p
    cogs := cogs
    gross_profit := gross_profit
    total_expenses := total_expenses
    net_profit := net_profit
    profit_margin_percent := Calculator.calculate_profit_margin gross_profit p.sales_amount_after_spp
    roi_percent := Calculator.calculate_roi net_profit cogs
    avg_check := Calculator.calculate_avg_check p.sales_amount_after_spp p.sales }

/-- Banker's rounding to an integer (the rounding mode of Python's
built-in `round`): ties go to the even integer. -/
def roundHalfEven (q : ℚ) : ℤ :=
  let f := ⌊q⌋
  let r := q - (f : ℚ)
  if r < 1 / 2 then f
  else if 1 / 2 < r then f + 1
  else if f % 2 = 0 then f else f + 1

/-- Python's `round(x, 2)` modelled on rationals. -/
def pyRound2 (q : ℚ) : ℚ := (roundHalfEven (q * 100) : ℚ) / 100

/-- Value stored in the summary mapping (Python dict values are
heterogeneous: int, str or float). -/
inductive SummaryValue where
  | intV (z : ℤ)
  | strV (s : String)
  | numV (q : ℚ)
deriving Repr, DecidableEq

/-- Summary mapping, from `ProductMetrics.to_dict` (src/models/product.py).
Python dicts preserve insertion order, so the mapping is an ordered
association list. -/
def ProductMetrics.to_dict (m : ProductMetrics) : List (String × SummaryValue) :=
  [ ("nm_id", .intV m.product.nm_id)
  , ("product_name", .strV m.product.product_name)
  , ("sales", .intV m.product.sales)
  , ("returns", .intV m.product.returns)
  , ("net_sales", .intV m.product.net_sales)
  , ("revenue", .numV m.product.sales_amount_after_spp)
  , ("cogs", .numV m.cogs)
  , ("gross_profit", .numV m.gross_profit)
  , ("total_expenses", .numV m.total_expenses)
  , ("net_profit", .numV m.net_profit)
  , ("profit_margin_percent", .numV (pyRound2 m.profit_margin_percent))
  , ("roi_percent", .numV (pyRound2 m.roi_percent))
  , ("avg_check", .numV (pyRound2 m.avg_check)) ]

/-- The fixed key set of the summary mapping, in source order. -/
def summaryKeys : List String :=
  [ "nm_id", "product_name", "sales", "returns", "net_sales", "revenue"
  , "cogs", "gross_profit", "total_expenses", "net_profit"
  , "profit_margin_percent", "roi_percent", "avg_check" ]

/-! ### Report aggregator, API path (src/compare_api_vs_csv.py) -/

/-- One raw record of the WB "reportDetail" report, as consumed by
`DataComparator.calculate_metrics_from_api` (src/compare_api_vs_csv.py).
`none` models a missing key or a JSON null, for which `row.get(key)` yields
`None` and `row.get(key, 0)` yields 0. -/
structure ApiRow where
  nm_id : Option ℤ := none
  subject_name : Option String := none
  brand_name : Option String := none
  quantity : Option ℚ := none
  ppvz_for_pay : Option ℚ := none
  retail_amount : Option ℚ := none
  ppvz_sales_commission : Option ℚ := none
  delivery_rub : Option ℚ := none
  storage_fee : Option ℚ := none
  penalty : Option ℚ := none
  acceptance : Option ℚ := none
deriving Repr, DecidableEq

/-- One aggregate bucket of `by_article` on the API path. -/
structure ApiBucket where
  nm_id : ℤ
  subject_name : String
  brand_name : String
  quantity : ℚ
  ppvz_for_pay : ℚ
  retail_amount : ℚ
  ppvz_sales_commission : ℚ
  delivery_rub : ℚ
  storage_fee : ℚ
  penalty : ℚ
  acceptance : ℚ
deriving Repr, DecidableEq

/-- The zero-initialized bucket created on first sight of an article
(names are taken from the first record, numeric fields start at 0). -/
def initBucket (i : ℤ) (r : ApiRow) : ApiBucket :=
  { nm_id := i
    subject_name := r.subject_name.getD ""
    brand_name := r.brand_name.getD ""
    quantity := 0
    ppvz_for_pay := 0
    retail_amount := 0
    ppvz_sales_commission := 0
    delivery_rub := 0
    storage_fee := 0
    penalty := 0
    acceptance := 0 }

/-- One accumulation step: each numeric field of the bucket grows by the
record's value (`row.get(key, 0)`), added, never overwritten. -/
def accumBucket (b : ApiBucket) (r : ApiRow) : ApiBucket :=
  { b with
    quantity := b.quantity + r.quantity.getD 0
    ppvz_for_pay := b.ppvz_for_pay + r.ppvz_for_pay.getD 0
    retail_amount := b.retail_amount + r.retail_amount.getD 0
    ppvz_sales_commission := b.ppvz_sales_commission + r.ppvz_sales_commission.getD 0
    delivery_rub := b.delivery_rub + r.delivery_rub.getD 0
    storage_fee := b.storage_fee + r.storage_fee.getD 0
    penalty := b.penalty + r.penalty.getD 0
    acceptance := b.acceptance + r.acceptance.getD 0 }

/-- Insertion-ordered dict update for `by_article[nm_id]`: an existing key
keeps its position and is accumulated into; a new key is appended with a
zero-initialized bucket that the record is then accumulated into. -/
def updateArticle (m : List (ℤ × ApiBucket)) (i : ℤ) (r : ApiRow) :
    List (ℤ × ApiBucket) :=
  match m with
  | [] => [(i, accumBucket (initBucket i r) r)]
  | (j, b) :: rest =>
      if j = i then (j, accumBucket b r) :: rest
      else (j, b) :: updateArticle rest i r

/-- One loop iteration of the API aggregation: `if not nm_id: continue`
tests Python falsiness, so a missing/None id and the id 0 are skipped. -/
def apiStep (m : List (ℤ × ApiBucket)) (r : ApiRow) : List (ℤ × ApiBucket) :=
  match r.nm_id with
  | none => m
  | some i => if i = 0 then m else updateArticle m i r

/-- The `by_article` mapping built by the API-path loop. -/
def apiAggregate (rows : List ApiRow) : List (ℤ × ApiBucket) :=
  rows.foldl apiStep []

/-- A record survives the API-path falsiness guard exactly when its `nm_id`
is present and nonzero. -/
def apiRowValid (r : ApiRow) : Bool :=
  match r.nm_id with
  | none => false
  | some i => !(i == 0)

/-- Metrics dictionary of the API path. -/
structure ApiMetrics where
  by_article : List (ℤ × ApiBucket)
  total_articles : ℕ
  total_quantity : ℚ
  total_to_pay : ℚ
deriving Repr, DecidableEq

/-- `DataComparator.calculate_metrics_from_api`, restricted to its
aggregation core: the argument is the already-resolved `reportDetail`
payload. When the payload is empty the code leaves `metrics` as an empty
dict, modelled as `none`. -/
def calculate_metrics_from_api (rows : List ApiRow) : Option ApiMetrics :=
  if rows.isEmpty then none
  else
    let by_article := apiAggregate rows
    some
      { by_article := by_article
        total_articles := by_article.length
        total_quantity := (by_article.map (fun p => p.2.quantity)).sum
        total_to_pay := (by_article.map (fun p => p.2.ppvz_for_pay)).sum }

/-! ### Report aggregator, CSV path (src/compare_api_vs_csv.py) -/

/-- One pandas cell: missing (NaN), a string, or a number. -/
inductive Cell where
  | na
  | str (s : String)
  | num (q : ℚ)
deriving Repr, DecidableEq

/-- Python `str()` applied to a cell; NaN prints as "nan", numbers as their
numeral (the claims only exercise string-valued identifier cells). -/
def pyStr : Cell → String
  | .na => "nan"
  | .str s => s
  | .num q => toString q

/-- Python single-character `str.replace(c, "")` over the character list. -/
def pyReplaceDrop (c : Char) (l : List Char) : List Char :=
  l.filter (fun a => a != c)

/-- Python single-character `str.replace(c, d)` over the character list. -/
def pyReplaceChar (c d : Char) (l : List Char) : List Char :=
  l.map (fun a => if a = c then d else a)

/-- The replace chain of `DataComparator._safe_float`, in source order:
`.replace(' ', '').replace(',', '.').replace('₽', '').replace('%', '')`. -/
def cleanChars (l : List Char) : List Char :=
  pyReplaceDrop '%' (pyReplaceDrop '₽' (pyReplaceChar ',' '.' (pyReplaceDrop ' ' l)))

/-- Numeric value of a digit list. -/
def digitsVal (l : List Char) : ℕ :=
  l.foldl (fun n c => n * 10 + (c.toNat - 48)) 0

/-- All characters are decimal digits. -/
def allDigits (l : List Char) : Bool :=
  l.all (fun c => c.isDigit)

/-- Mantissa of a Python float literal: digits with at most one decimal
point and at least one digit (`"1."`, `".5"`, `"12"` are all accepted). -/
def parseMantissa (l : List Char) : Option ℚ :=
  let ip := l.takeWhile (fun c => c != '.')
  match l.dropWhile (fun c => c != '.') with
  | [] => if ip ≠ [] ∧ allDigits ip then some (digitsVal ip : ℚ) else none
  | _ :: fp =>
      if fp.all (fun c => c != '.') ∧ allDigits ip ∧ allDigits fp
          ∧ (ip ≠ [] ∨ fp ≠ []) then
        some ((digitsVal (ip ++ fp) : ℚ) / (10 : ℚ) ^ fp.length)
      else none

/-- Exponent part of a Python float literal: optional sign then digits. -/
def parseExpPart (l : List Char) : Option ℤ :=
  let sgn : ℤ × List Char :=
    match l with
    | '+' :: t => (1, t)
    | '-' :: t => (-1, t)
    | t => (1, t)
  if sgn.2 ≠ [] ∧ allDigits sgn.2 then some (sgn.1 * digitsVal sgn.2) else none

/-- Python `float()` on a cleaned character list: optional sign, mantissa,
optional `e`/`E` exponent. Non-finite literals (`inf`, `nan`) are outside
the rational model and parse as failures here. -/
def parseFloatChars (l : List Char) : Option ℚ :=
  let sgn : ℚ × List Char :=
    match l with
    | '+' :: t => (1, t)
    | '-' :: t => (-1, t)
    | t => (1, t)
  let lw := sgn.2.map Char.toLower
  let mant := lw.takeWhile (fun c => c != 'e')
  match lw.dropWhile (fun c => c != 'e') with
  | [] => (parseMantissa mant).map (fun v => sgn.1 * v)
  | _ :: ex =>
      match parseMantissa mant, parseExpPart ex with
      | some v, some e => some (sgn.1 * v * (10 : ℚ) ^ e)
      | _, _ => none

/-- Leading and trailing whitespace removed, as Python's `str.strip()`. -/
def trimChars (l : List Char) : List Char :=
  ((l.dropWhile Char.isWhitespace).reverse.dropWhile Char.isWhitespace).reverse

/-- Python `str.strip()` on a string. -/
def pyStrip (s : String) : String :=
  String.mk (trimChars s.toList)

/-- Python `float(s)` (which strips surrounding whitespace first). -/
def pyFloatOfString (s : String) : Option ℚ :=
  parseFloatChars (trimChars s.toList)

/-- `DataComparator._safe_float`: NaN gives 0.0; strings go through the
replace chain then `float()`; any parse failure is caught and gives 0.0. -/
def _safe_float (c : Cell) : ℚ :=
  match c with
  | .na => 0
  | .num q => q
  | .str s => (pyFloatOfString (String.mk (cleanChars s.toList))).getD 0

/-- One positional CSV row of the vendor export, restricted to the five
columns the aggregation reads: identifier (column 2), seller SKU (column 3),
group name (column 5), quantity (column 9), amount payable (column 48). -/
structure CsvRow where
  c2 : Cell := .na
  c3 : Cell := .na
  c5 : Cell := .na
  c9 : Cell := .na
  c48 : Cell := .na
deriving Repr, DecidableEq

/-- One `by_article` entry of the CSV path. -/
structure CsvArticle where
  nm_id : String
  seller_article : String
  name : String
  quantity : ℚ
  to_pay : ℚ
deriving Repr, DecidableEq

/-- The article dictionary that one CSV row produces, or `none` when the
loop skips the row (`if not nm_id or nm_id == 'nan': continue`). -/
def articleOf (r : CsvRow) : Option (String × CsvArticle) :=
  let nm_id := pyStrip (pyStr r.c2)
  if nm_id = "" ∨ nm_id = "nan" then none
  else
    some (nm_id,
      { nm_id := nm_id
        seller_article := pyStr r.c3
        name := pyStr r.c5
        quantity := _safe_float r.c9
        to_pay := _safe_float r.c48 })

/-- Insertion-ordered dict assignment `by_article[nm_id] = article`: an
existing key keeps its position and its value is REPLACED; a new key is
appended. -/
def setArticle (m : List (String × CsvArticle)) (k : String) (a : CsvArticle) :
    List (String × CsvArticle) :=
  match m with
  | [] => [(k, a)]
  | (j, b) :: rest =>
      if j = k then (j, a) :: rest
      else (j, b) :: setArticle rest k a

/-- One loop iteration of the CSV aggregation. -/
def csvLoopStep (m : List (String × CsvArticle)) (r : CsvRow) :
    List (String × CsvArticle) :=
  match articleOf r with
  | none => m
  | some (k, a) => setArticle m k a

/-- Metrics dictionary of the CSV path. -/
structure CsvMetrics where
  by_article : List (String × CsvArticle)
  total_articles : ℕ
  total_quantity : ℚ
  total_to_pay : ℚ
deriving Repr, DecidableEq

/-- `DataComparator.calculate_metrics_from_csv`: the dataframe is first
filtered (identifier cell not NaN, then not the string `'-1'`), then the
loop builds `by_article` and the totals are sums over its values. -/
def calculate_metrics_from_csv (rows : List CsvRow) : CsvMetrics :=
  let rows1 := rows.filter (fun r => !(r.c2 == Cell.na))
  let rows2 := rows1.filter (fun r => !(r.c2 == Cell.str "-1"))
  let by_article := rows2.foldl csvLoopStep []
  { by_article := by_article
    total_articles := by_article.length
    total_quantity := (by_article.map (fun p => p.2.quantity)).sum
    total_to_pay := (by_article.map (fun p => p.2.to_pay)).sum }

/-- A CSV row contributes to the aggregate exactly when it passes both
dataframe filters and the in-loop skip. -/
def csvRowValid (r : CsvRow) : Bool :=
  !(r.c2 == Cell.na) && !(r.c2 == Cell.str "-1") && (articleOf r).isSome

/-! ### Reconciliation comparator and loader -/

/-- `DataComparator._compare_value`, as the pure triple it computes and
prints: the difference, the percentage difference (0 when the CSV value is
0), and the divergence flag (the `⚠️` branch, taken exactly when
`abs(diff_pct) < 5` fails). -/
def _compare_value (api_val csv_val : ℚ) : ℚ × ℚ × Bool :=
  let diff := api_val - csv_val
  let diff_pct := if csv_val ≠ 0 then diff / csv_val * 100 else 0
  (diff, diff_pct, !(decide (|diff_pct| < 5)))

/-- A record of a loaded file, as in `df.to_dict('records')`. -/
abbrev RecordDict := List (String × Cell)

/-- Failure value reaching the caller of the loader. `exception` is the
plain `Exception` the source raises. The `aggregationError` and
`parseError` constructors are Modelled from the spec: §7 names typed
failures `AggregationError`/`ParseError`, but no such class exists anywhere
in the source tree. -/
inductive PyError where
  | exception (msg : String)
  | aggregationError (msg : String)
  | parseError (msg : String)
deriving Repr, DecidableEq

/-- Whether a failure is one of the typed failures the spec names. -/
def isTypedFailure : PyError → Bool
  | .exception _ => false
  | .aggregationError _ => true
  | .parseError _ => true

/-- `DataLoader.load_from_csv` (src/data/loader.py). The pandas read is the
external RecordReader collaborator; its outcome is the argument (`.error`
models an unreadable file). The code re-raises any failure as a plain
`Exception` wrapping the cause message. -/
def load_from_csv (readResult : Except String (List RecordDict)) :
    Except PyError (List RecordDict) :=
  match readResult with
  | .ok df => .ok df
  | .error e => .error (.exception ("Ошибка чтения CSV: " ++ e))

/-- Payload shapes `json.load` can hand to `DataLoader.load_from_json`. -/
inductive JsonData where
  | obj (d : RecordDict)
  | arr (l : List RecordDict)
deriving Repr, DecidableEq

/-- `DataLoader.load_from_json` (src/data/loader.py): a dict payload is
wrapped in a singleton list; a failure is re-raised as a plain `Exception`. -/
def load_from_json (readResult : Except String JsonData) :
    Except PyError (List RecordDict) :=
  match readResult with
  | .ok (.obj d) => .ok [d]
  | .ok (.arr l) => .ok l
  | .error e => .error (.exception ("Ошибка чтения JSON: " ++ e))

/-- Concrete product of the COGS example: sales=100, returns=10,
self_purchase_count=5, giveaway_count=5, cost_per_unit=100, giveaway_cost=0. -/
def c3Product : Product :=
  { nm_id := 123
    sales := 100
    returns := 10
    manual_data :=
      { cost_per_unit := 100
        self_purchase_count := 5
        giveaway_count := 5 } }

/-- Concrete product whose return and giveaway counts exceed its sales. -/
def c3NegProduct : Product :=
  { nm_id := 124
    sales := 1
    returns := 5
    manual_data := { cost_per_unit := 2 } }

/-- Concrete product with refusals=1, deliveries=2 and returns=1, sales=4. -/
def c4Product : Product :=
  { nm_id := 125
    deliveries := 2
    sales := 4
    returns := 1
    refusals := 1 }

/-- The aggregation example records `[{id:"A", qty:2, amt:10},
{id:"A", qty:3, amt:5}, {id:None, qty:99, amt:99}]` on the API path, with
the article "A" embedded as the integer id 1. -/
def exApiRows : List ApiRow :=
  [ { nm_id := some 1, quantity := some 2, ppvz_for_pay := some 10 }
  , { nm_id := some 1, quantity := some 3, ppvz_for_pay := some 5 }
  , { nm_id := none, quantity := some 99, ppvz_for_pay := some 99 } ]

/-- An API record carrying the "unassigned" sentinel id -1. -/
def exNeg1Row : ApiRow :=
  { nm_id := some (-1), quantity := some 2, ppvz_for_pay := some 10 }

/-- The same aggregation example records on the CSV path. -/
def exCsvRows : List CsvRow :=
  [ { c2 := .str "A", c9 := .num 2, c48 := .num 10 }
  , { c2 := .str "A", c9 := .num 3, c48 := .num 5 }
  , { c2 := .na, c9 := .num 99, c48 := .num 99 } ]

/-- An API record with every field absent (a falsy `nm_id`). -/
def exNoneRow : ApiRow := {}

/-- Numeric coercion exactly as the claim words it, for comparison with the
code: string values are STRIPPED of whitespace, thousands separators
(commas), currency symbols and percent signs before parsing; unparsable or
missing values give 0. -/
def claimSafeFloat (c : Cell) : ℚ :=
  match c with
  | .na => 0
  | .num q => q
  | .str s =>
      (pyFloatOfString (String.mk (s.toList.filter
        (fun a => a != ' ' && a != ',' && a != '₽' && a != '%')))).getD 0

/-- Numeric coercion as amended: spaces, currency signs and percent signs
are removed, commas become decimal points, then the value is parsed,
defaulting to 0. -/
def amendedSafeFloat (c : Cell) : ℚ :=
  match c with
  | .na => 0
  | .num q => q
  | .str s =>
      (pyFloatOfString (String.mk
        ((s.toList.filter (fun a => a != ' ' && a != '₽' && a != '%')).map
          (fun a => if a = ',' then '.' else a)))).getD 0

section Proofs

attribute [local semireducible] Rat.add Rat.sub Rat.mul Rat.inv

/-- Looking up the key just updated finds the accumulated bucket (the
existing one, or a fresh zero-initialized one). -/
theorem lookup_updateArticle_self (m : List (ℤ × ApiBucket)) (i : ℤ) (r : ApiRow) :
    List.lookup i (updateArticle m i r)
      = some (accumBucket ((List.lookup i m).getD (initBucket i r)) r) := by
  induction m with
  | nil => simp [updateArticle, List.lookup]
  | cons p rest ih =>
    obtain ⟨j, b⟩ := p
    by_cases h : j = i
    · subst h
      simp [updateArticle, List.lookup]
    · have h' : ¬ i = j := fun hh => h hh.symm
      have hb : (i == j) = false := by simp [h']
      simp [updateArticle, List.lookup, h, hb, ih]

/-- Updating one key leaves every other key's lookup unchanged. -/
theorem lookup_updateArticle_ne (m : List (ℤ × ApiBucket)) (i j : ℤ) (r : ApiRow)
    (h : j ≠ i) :
    List.lookup j (updateArticle m i r) = List.lookup j m := by
  have hb : (j == i) = false := by simp [h]
  induction m with
  | nil => simp [updateArticle, List.lookup, hb]
  | cons p rest ih =>
    obtain ⟨k, b⟩ := p
    by_cases hk : k = i
    · subst hk
      simp [updateArticle, List.lookup, hb]
    · simp [updateArticle, hk, List.lookup, ih]

/-- Generic accumulation law of the API fold: for any bucket field `f`
initialized to 0 and accumulated by adding the row contribution `g`, the
field of article `i`'s bucket after the fold is its value in the initial
mapping plus the sum of `g` over the records carrying id `i`. -/
theorem apiAgg_field_aux (f : ApiBucket → ℚ) (g : ApiRow → ℚ)
    (hinit : ∀ i r, f (initBucket i r) = 0)
    (hacc : ∀ b r, f (accumBucket b r) = f b + g r)
    (rows : List ApiRow) (i : ℤ) (hi : i ≠ 0) :
    ∀ m : List (ℤ × ApiBucket),
      ((List.lookup i (rows.foldl apiStep m)).map f).getD 0
        = ((List.lookup i m).map f).getD 0
          + ((rows.filter (fun r => r.nm_id == some i)).map g).sum := by
  induction rows with
  | nil => intro m; simp
  | cons r rest ih =>
    intro m
    rw [List.foldl_cons]
    cases hnm : r.nm_id with
    | none =>
      have hstep : apiStep m r = m := by simp [apiStep, hnm]
      have hfil : (r :: rest).filter (fun x => x.nm_id == some i)
          = rest.filter (fun x => x.nm_id == some i) := by
        simp [List.filter_cons, hnm]
      rw [hstep, hfil]
      exact ih m
    | some j =>
      by_cases hj : j = 0
      · subst hj
        have hstep : apiStep m r = m := by simp [apiStep, hnm]
        have h0 : ¬ (0 : ℤ) = i := fun hh => hi hh.symm
        have hfil : (r :: rest).filter (fun x => x.nm_id == some i)
            = rest.filter (fun x => x.nm_id == some i) := by
          simp [List.filter_cons, hnm, h0]
        rw [hstep, hfil]
        exact ih m
      · have hstep : apiStep m r = updateArticle m j r := by
          simp [apiStep, hnm, hj]
        by_cases hji : j = i
        · subst hji
          have hfil : (r :: rest).filter (fun x => x.nm_id == some j)
              = r :: rest.filter (fun x => x.nm_id == some j) := by
            simp [List.filter_cons, hnm]
          rw [hstep, hfil, ih (updateArticle m j r)]
          rw [lookup_updateArticle_self m j r]
          cases hl : List.lookup j m with
          | none => simp [hl, hacc, hinit]
          | some b => simp [hl, hacc]; ring
        · have hfil : (r :: rest).filter (fun x => x.nm_id == some i)
            = rest.filter (fun x => x.nm_id == some i) := by
            simp [List.filter_cons, hnm, hji]
          rw [hstep, hfil, ih (updateArticle m j r),
            lookup_updateArticle_ne m j i r (fun hh => hji hh.symm)]

/-- Membership law of the API fold: article `i` has a bucket after the fold
exactly when it had one before or some record carries id `i`. -/
theorem apiAgg_isSome_aux (rows : List ApiRow) (i : ℤ) (hi : i ≠ 0) :
    ∀ m : List (ℤ × ApiBucket),
      (List.lookup i (rows.foldl apiStep m)).isSome
        = ((List.lookup i m).isSome || rows.any (fun r => r.nm_id == some i)) := by
  induction rows with
  | nil => intro m; simp
  | cons r rest ih =>
    intro m
    rw [List.foldl_cons]
    cases hnm : r.nm_id with
    | none =>
      have hstep : apiStep m r = m := by simp [apiStep, hnm]
      rw [hstep, ih m]
      simp [List.any_cons, hnm]
    | some j =>
      by_cases hj : j = 0
      · subst hj
        have hstep : apiStep m r = m := by simp [apiStep, hnm]
        have h0 : ¬ (0 : ℤ) = i := fun hh => hi hh.symm
        have hb : ((0 : ℤ) == i) = false := by simp [h0]
        rw [hstep, ih m]
        simp [List.any_cons, hnm, hb]
      · have hstep : apiStep m r = updateArticle m j r := by
          simp [apiStep, hnm, hj]
        rw [hstep, ih (updateArticle m j r)]
        by_cases hji : j = i
        · subst hji
          rw [lookup_updateArticle_self m j r]
          simp [List.any_cons, hnm]
        · have hb : (j == i) = false := by simp [hji]
          rw [lookup_updateArticle_ne m j i r (fun hh => hji hh.symm)]
          simp [List.any_cons, hnm, hb]

/-- The falsiness guard keeps the id 0 out of the mapping forever. -/
theorem apiAgg_lookup_zero_aux (rows : List ApiRow) :
    ∀ m : List (ℤ × ApiBucket),
      List.lookup 0 (rows.foldl apiStep m) = List.lookup 0 m := by
  induction rows with
  | nil => intro m; rfl
  | cons r rest ih =>
    intro m
    rw [List.foldl_cons]
    cases hnm : r.nm_id with
    | none =>
      have hstep : apiStep m r = m := by simp [apiStep, hnm]
      rw [hstep]; exact ih m
    | some j =>
      by_cases hj : j = 0
      · subst hj
        have hstep : apiStep m r = m := by simp [apiStep, hnm]
        rw [hstep]; exact ih m
      · have hstep : apiStep m r = updateArticle m j r := by
          simp [apiStep, hnm, hj]
        rw [hstep, ih (updateArticle m j r),
          lookup_updateArticle_ne m j 0 r (fun hh => hj hh.symm)]

/-- Folding a step that ignores invalid elements is folding over the valid
ones. -/
theorem foldl_filter_skip {α β : Type} (step : β → α → β) (valid : α → Bool)
    (hskip : ∀ b a, valid a = false → step b a = b) (l : List α) :
    ∀ b : β, l.foldl step b = (l.filter valid).foldl step b := by
  induction l with
  | nil => intro b; rfl
  | cons a t ih =>
    intro b
    by_cases h : valid a
    · rw [List.foldl_cons, List.filter_cons_of_pos h, List.foldl_cons]
      exact ih (step b a)
    · rw [List.foldl_cons, hskip b a (by simpa using h),
        List.filter_cons_of_neg (by simpa using h)]
      exact ih b

/-- Two filter passes collapse into one conjunction. -/
theorem filter_filter_eq {α : Type} (p q : α → Bool) (l : List α) :
    (l.filter p).filter q = l.filter (fun a => p a && q a) := by
  induction l with
  | nil => rfl
  | cons a t ih =>
    by_cases hp : p a
    · by_cases hq : q a <;> simp [List.filter_cons, hp, hq, ih]
    · simp [List.filter_cons, hp, ih]

/-- Pointwise-equal predicates filter identically. -/
theorem filter_congr_eq {α : Type} (p q : α → Bool) (h : ∀ a, p a = q a)
    (l : List α) : l.filter p = l.filter q := by
  induction l with
  | nil => rfl
  | cons a t ih => rw [List.filter_cons, List.filter_cons, h a, ih]

/-- C2: the three division guards return `0.0` on a zero denominator, and on
a nonzero denominator each function returns the exact quotient formula;
every branch is a total function value, never an exception. -/
theorem c2_division_guards (g n a : ℚ) :
    Calculator.calculate_profit_margin g 0 = 0
    ∧ Calculator.calculate_roi n 0 = 0
    ∧ Calculator.calculate_avg_check a 0 = 0
    ∧ (∀ rev : ℚ, rev ≠ 0 → Calculator.calculate_profit_margin g rev = g / rev * 100)
    ∧ (∀ c : ℚ, c ≠ 0 → Calculator.calculate_roi n c = n / c * 100)
    ∧ (∀ sc : ℤ, sc ≠ 0 → Calculator.calculate_avg_check a sc = a / (sc : ℚ)) := by
  refine ⟨rfl, rfl, rfl, ?_, ?_, ?_⟩
  · intro rev h
    simp [Calculator.calculate_profit_margin, h]
  · intro c h
    simp [Calculator.calculate_roi, h]
  · intro sc h
    simp [Calculator.calculate_avg_check, h]

/-- Witness for C2 at gross_profit=4000, revenue=10000: margin is 40. -/
theorem c2_division_guards_witness :
    Calculator.calculate_profit_margin 4000 10000 = 40 := by
  have h := (c2_division_guards 4000 0 0).2.2.2.1 10000 (by norm_num)
  rw [h]; norm_num

/-- C3: COGS is `(sales - returns - self_purchase_count - giveaway_count) *
cost_per_unit + giveaway_cost` with no clamping: when returns, self-purchases
and giveaways exceed sales the net-sold term is negative (and so is the whole
COGS when the unit cost is positive and the giveaway cost nonpositive); the
concrete example evaluates to 8000. -/
theorem c3_cogs_formula (p : Product) :
    Calculator.calculate_cogs p
      = ((p.sales - p.returns - p.manual_data.self_purchase_count
          - p.manual_data.giveaway_count : ℤ) : ℚ)
        * p.manual_data.cost_per_unit + p.manual_data.giveaway_cost
    ∧ (p.sales < p.returns + p.manual_data.self_purchase_count
          + p.manual_data.giveaway_count →
        p.sales - p.returns - p.manual_data.self_purchase_count
          - p.manual_data.giveaway_count < 0)
    ∧ (p.sales < p.returns + p.manual_data.self_purchase_count
          + p.manual_data.giveaway_count →
        0 < p.manual_data.cost_per_unit → p.manual_data.giveaway_cost ≤ 0 →
        Calculator.calculate_cogs p < 0)
    ∧ Calculator.calculate_cogs c3Product = 8000 := by
  refine ⟨rfl, ?_, ?_, by norm_num [Calculator.calculate_cogs, c3Product]⟩
  · intro h; omega
  · intro h hcost hgive
    have hneg : p.sales - p.returns - p.manual_data.self_purchase_count
        - p.manual_data.giveaway_count < 0 := by omega
    have hnegQ : ((p.sales - p.returns - p.manual_data.self_purchase_count
        - p.manual_data.giveaway_count : ℤ) : ℚ) < 0 := by exact_mod_cast hneg
    have := mul_neg_of_neg_of_pos hnegQ hcost
    unfold Calculator.calculate_cogs
    push_cast
    push_cast at this
    linarith

/-- Witness for C3 at a product with sales=1, returns=5, cost_per_unit=2:
COGS is negative. -/
theorem c3_cogs_formula_witness :
    Calculator.calculate_cogs c3NegProduct < 0 :=
  (c3_cogs_formula c3NegProduct).2.2.1 (by decide) (by norm_num [c3NegProduct])
    (by norm_num [c3NegProduct])

/-- C4 counterexample: at refusals=1, deliveries=2 the code's refusal
property is 50 (a percentage), not the 1/2 the claim's `refusals/deliveries`
formula demands; likewise the returns property is 25, not 1/4. -/
theorem c4_rates_counterexample :
    Product.percent_refusals c4Product = 50
    ∧ Product.percent_refusals c4Product
        ≠ (c4Product.refusals : ℚ) / (c4Product.deliveries : ℚ)
    ∧ Product.percent_returns c4Product = 25
    ∧ Product.percent_returns c4Product
        ≠ (c4Product.returns : ℚ) / (c4Product.sales : ℚ) := by
  refine ⟨?_, ?_, ?_, ?_⟩ <;> norm_num [Product.percent_refusals,
    Product.percent_returns, c4Product]

/-- C4 amended: `net_sales = sales - returns - self_purchase_count`; the
refusal property is `refusals/deliveries*100` (0 when deliveries=0) and the
returns property is `returns/sales*100` (0 when sales=0) — both are
percentages, not bare ratios. -/
theorem c4_rates_amended (p : Product) :
    p.net_sales = p.sales - p.returns - p.manual_data.self_purchase_count
    ∧ (p.deliveries = 0 → p.percent_refusals = 0)
    ∧ (p.deliveries ≠ 0 →
        p.percent_refusals = (p.refusals : ℚ) / (p.deliveries : ℚ) * 100)
    ∧ (p.sales = 0 → p.percent_returns = 0)
    ∧ (p.sales ≠ 0 →
        p.percent_returns = (p.returns : ℚ) / (p.sales : ℚ) * 100) := by
  refine ⟨rfl, ?_, ?_, ?_, ?_⟩ <;> intro h <;>
    simp [Product.percent_refusals, Product.percent_returns, h]

/-- Witness for C4 amended at deliveries=2, refusals=1. -/
theorem c4_rates_amended_witness :
    Product.percent_refusals c4Product
      = (c4Product.refusals : ℚ) / (c4Product.deliveries : ℚ) * 100 :=
  (c4_rates_amended c4Product).2.2.1 (by decide)

/-- C8: the summary mapping has exactly the thirteen fixed keys in order;
the three percentage/average fields are rounded to 2 decimal places and all
other values are passed through unmodified. -/
theorem c8_to_dict_shape (m : ProductMetrics) :
    (m.to_dict.map Prod.fst) = summaryKeys
    ∧ List.lookup "nm_id" m.to_dict = some (.intV m.product.nm_id)
    ∧ List.lookup "product_name" m.to_dict = some (.strV m.product.product_name)
    ∧ List.lookup "sales" m.to_dict = some (.intV m.product.sales)
    ∧ List.lookup "returns" m.to_dict = some (.intV m.product.returns)
    ∧ List.lookup "net_sales" m.to_dict = some (.intV m.product.net_sales)
    ∧ List.lookup "revenue" m.to_dict = some (.numV m.product.sales_amount_after_spp)
    ∧ List.lookup "cogs" m.to_dict = some (.numV m.cogs)
    ∧ List.lookup "gross_profit" m.to_dict = some (.numV m.gross_profit)
    ∧ List.lookup "total_expenses" m.to_dict = some (.numV m.total_expenses)
    ∧ List.lookup "net_profit" m.to_dict = some (.numV m.net_profit)
    ∧ List.lookup "profit_margin_percent" m.to_dict
        = some (.numV (pyRound2 m.profit_margin_percent))
    ∧ List.lookup "roi_percent" m.to_dict = some (.numV (pyRound2 m.roi_percent))
    ∧ List.lookup "avg_check" m.to_dict = some (.numV (pyRound2 m.avg_check)) := by
  refine ⟨rfl, ?_, ?_, ?_, ?_, ?_, ?_, ?_, ?_, ?_, ?_, ?_, ?_, ?_⟩ <;>
    simp [ProductMetrics.to_dict, List.lookup]

/-- The replace chain of `_safe_float` equals one filter pass (dropping
spaces, currency and percent signs) followed by one comma-to-point map. -/
theorem cleanChars_eq (l : List Char) :
    cleanChars l
      = (l.filter (fun a => a != ' ' && a != '₽' && a != '%')).map
          (fun a => if a = ',' then '.' else a) := by
  induction l with
  | nil => rfl
  | cons c t ih =>
    by_cases h1 : c = ' '
    · subst h1
      simpa [cleanChars, pyReplaceDrop, pyReplaceChar, List.filter_cons] using ih
    · by_cases h2 : c = ','
      · subst h2
        simpa [cleanChars, pyReplaceDrop, pyReplaceChar, List.filter_cons,
          List.map_cons] using ih
      · by_cases h3 : c = '₽'
        · subst h3
          simpa [cleanChars, pyReplaceDrop, pyReplaceChar, List.filter_cons,
            List.map_cons] using ih
        · by_cases h4 : c = '%'
          · subst h4
            simpa [cleanChars, pyReplaceDrop, pyReplaceChar, List.filter_cons,
              List.map_cons] using ih
          · simpa [cleanChars, pyReplaceDrop, pyReplaceChar, List.filter_cons,
              List.map_cons, h1, h2, h3, h4] using ih

/-- C1 amended: on the API path a bucket is created zero-initialized on
first sight and quantity and money accumulate by addition (the bucket's
field is the sum of the matching records' contributions, and a bucket
exists exactly when some valid record carries its id); on the example
records the API path yields exactly one bucket with quantity 5 and amount
15, while the CSV path OVERWRITES on repeated ids, yielding one bucket
with quantity 3 and amount 5 (the last row's values). -/
theorem c1_aggregation :
    (∀ (rows : List ApiRow) (i : ℤ), i ≠ 0 →
      ((List.lookup i (apiAggregate rows)).map ApiBucket.quantity).getD 0
        = ((rows.filter (fun r => r.nm_id == some i)).map
            (fun r => r.quantity.getD 0)).sum)
    ∧ (∀ (rows : List ApiRow) (i : ℤ), i ≠ 0 →
      ((List.lookup i (apiAggregate rows)).map ApiBucket.ppvz_for_pay).getD 0
        = ((rows.filter (fun r => r.nm_id == some i)).map
            (fun r => r.ppvz_for_pay.getD 0)).sum)
    ∧ (∀ (rows : List ApiRow) (i : ℤ), i ≠ 0 →
      (List.lookup i (apiAggregate rows)).isSome
        = rows.any (fun r => r.nm_id == some i))
    ∧ calculate_metrics_from_api exApiRows
        = some
          { by_article :=
              [ (1, { nm_id := 1, subject_name := "", brand_name := ""
                    , quantity := 5, ppvz_for_pay := 15, retail_amount := 0
                    , ppvz_sales_commission := 0, delivery_rub := 0
                    , storage_fee := 0, penalty := 0, acceptance := 0 }) ]
            total_articles := 1
            total_quantity := 5
            total_to_pay := 15 }
    ∧ (calculate_metrics_from_csv exCsvRows).by_article
        = [ ("A", { nm_id := "A", seller_article := "nan", name := "nan"
                  , quantity := 3, to_pay := 5 }) ] := by
  refine ⟨?_, ?_, ?_, by decide, by decide⟩
  · intro rows i hi
    have h := apiAgg_field_aux ApiBucket.quantity (fun r => r.quantity.getD 0)
      (fun _ _ => rfl) (fun _ _ => rfl) rows i hi []
    simpa [apiAggregate, List.lookup] using h
  · intro rows i hi
    have h := apiAgg_field_aux ApiBucket.ppvz_for_pay (fun r => r.ppvz_for_pay.getD 0)
      (fun _ _ => rfl) (fun _ _ => rfl) rows i hi []
    simpa [apiAggregate, List.lookup] using h
  · intro rows i hi
    have h := apiAgg_isSome_aux rows i hi []
    simpa [apiAggregate, List.lookup] using h

/-- Witness for C1 at the example records and id 1. -/
theorem c1_aggregation_witness :
    ((List.lookup 1 (apiAggregate exApiRows)).map ApiBucket.quantity).getD 0
      = ((exApiRows.filter (fun r => r.nm_id == some 1)).map
          (fun r => r.quantity.getD 0)).sum :=
  c1_aggregation.1 exApiRows 1 (by decide)

/-- C1 counterexample: on the CSV path the example's two "A" rows do NOT
accumulate — the bucket holds quantity 3 and amount 5 (the last row), not
the claimed quantity 5 and amount 15. -/
theorem c1_csv_overwrites_counterexample :
    ((List.lookup "A" (calculate_metrics_from_csv exCsvRows).by_article).map
        CsvArticle.quantity) = some 3
    ∧ ¬ (((List.lookup "A" (calculate_metrics_from_csv exCsvRows).by_article).map
          CsvArticle.quantity) = some 5
        ∧ ((List.lookup "A" (calculate_metrics_from_csv exCsvRows).by_article).map
          CsvArticle.to_pay) = some 15) := by
  decide

/-- C5 amended: on the API path, records with a falsy id (missing/None or
0) are skipped and skipped records contribute nothing to any bucket or
total (aggregating only the valid records gives the same mapping), and on
the CSV path rows with a missing (NaN) id, the sentinel '-1' id, or an
empty/'nan' stringified id contribute nothing to buckets or totals; but
the API path does NOT skip the sentinel -1: such a record is valid there. -/
theorem c5_skip_rules :
    (∀ (m : List (ℤ × ApiBucket)) (r : ApiRow),
        r.nm_id = none ∨ r.nm_id = some 0 → apiStep m r = m)
    ∧ (∀ rows : List ApiRow, apiAggregate rows = apiAggregate (rows.filter apiRowValid))
    ∧ (∀ rows : List CsvRow,
        calculate_metrics_from_csv rows
          = calculate_metrics_from_csv (rows.filter csvRowValid))
    ∧ apiRowValid exNeg1Row = true := by
  have hskipApi : ∀ (b : List (ℤ × ApiBucket)) (a : ApiRow),
      apiRowValid a = false → apiStep b a = b := by
    intro b a ha
    cases hnm : a.nm_id with
    | none => simp [apiStep, hnm]
    | some i =>
      have : i = 0 := by
        unfold apiRowValid at ha
        rw [hnm] at ha
        simpa using ha
      simp [apiStep, hnm, this]
  have hskipCsv : ∀ (b : List (String × CsvArticle)) (a : CsvRow),
      (articleOf a).isSome = false → csvLoopStep b a = b := by
    intro b a ha
    unfold csvLoopStep
    cases hart : articleOf a with
    | none => rfl
    | some p => rw [hart] at ha; simp at ha
  refine ⟨?_, ?_, ?_, by decide⟩
  · intro m r h
    rcases h with h | h <;> simp [apiStep, h]
  · intro rows
    unfold apiAggregate
    exact foldl_filter_skip apiStep apiRowValid hskipApi rows []
  · intro rows
    have e1 : ((rows.filter (fun r => !(r.c2 == Cell.na))).filter
          (fun r => !(r.c2 == Cell.str "-1"))).foldl csvLoopStep []
        = (((rows.filter (fun r => !(r.c2 == Cell.na))).filter
            (fun r => !(r.c2 == Cell.str "-1"))).filter
              (fun r => (articleOf r).isSome)).foldl csvLoopStep [] :=
      foldl_filter_skip csvLoopStep (fun r => (articleOf r).isSome) hskipCsv _ []
    have e2 : ((rows.filter (fun r => !(r.c2 == Cell.na))).filter
          (fun r => !(r.c2 == Cell.str "-1"))).filter
            (fun r => (articleOf r).isSome)
        = rows.filter csvRowValid := by
      rw [filter_filter_eq, filter_filter_eq]
      apply filter_congr_eq
      intro a
      unfold csvRowValid
      cases h1 : (a.c2 == Cell.na) <;> cases h2 : (a.c2 == Cell.str "-1") <;>
        cases h3 : (articleOf a).isSome <;> simp [h1, h2, h3]
    have e3 : ((rows.filter csvRowValid).filter (fun r => !(r.c2 == Cell.na))).filter
          (fun r => !(r.c2 == Cell.str "-1"))
        = rows.filter csvRowValid := by
      rw [filter_filter_eq, filter_filter_eq]
      apply filter_congr_eq
      intro a
      unfold csvRowValid
      cases h1 : (a.c2 == Cell.na) <;> cases h2 : (a.c2 == Cell.str "-1") <;>
        cases h3 : (articleOf a).isSome <;> simp [h1, h2, h3]
    have hAB : ((rows.filter (fun r => !(r.c2 == Cell.na))).filter
          (fun r => !(r.c2 == Cell.str "-1"))).foldl csvLoopStep []
        = (((rows.filter csvRowValid).filter (fun r => !(r.c2 == Cell.na))).filter
            (fun r => !(r.c2 == Cell.str "-1"))).foldl csvLoopStep [] := by
      rw [e1, e2, e3]
    simp only [calculate_metrics_from_csv]
    rw [hAB]

/-- Witness for C5: a record whose fields are all missing is skipped. -/
theorem c5_skip_rules_witness : apiStep [] exNoneRow = [] :=
  c5_skip_rules.1 [] exNoneRow (Or.inl rfl)

/-- C5 counterexample: an API record with the sentinel id -1 is NOT
skipped — it creates a bucket and contributes its quantity to the totals,
refuting the claim that -1 records are skipped on both paths. -/
theorem c5_neg1_not_skipped_counterexample :
    List.lookup (-1) (apiAggregate [exNeg1Row])
      = some { nm_id := -1, subject_name := "", brand_name := ""
             , quantity := 2, ppvz_for_pay := 10, retail_amount := 0
             , ppvz_sales_commission := 0, delivery_rub := 0
             , storage_fee := 0, penalty := 0, acceptance := 0 }
    ∧ ((apiAggregate [exNeg1Row]).map (fun p => p.2.quantity)).sum = 2 := by
  decide

/-- C6: the comparator computes `diff = a - b`, `diff_pct = diff/b*100`
(0 when b = 0), and flags divergence exactly when `abs(diff_pct) >= 5`;
(105, 100) gives 5.0 and is flagged, (102, 100) gives 2.0 and is not. -/
theorem c6_compare_value (a b : ℚ) :
    (_compare_value a b).1 = a - b
    ∧ (b = 0 → (_compare_value a b).2.1 = 0)
    ∧ (b ≠ 0 → (_compare_value a b).2.1 = (a - b) / b * 100)
    ∧ ((_compare_value a b).2.2 = true ↔ 5 ≤ |(_compare_value a b).2.1|)
    ∧ _compare_value 105 100 = (5, 5, true)
    ∧ _compare_value 102 100 = (2, 2, false) := by
  refine ⟨rfl, ?_, ?_, ?_, by decide, by decide⟩
  · intro h; simp [_compare_value, h]
  · intro h; simp [_compare_value, h]
  · simp [_compare_value, not_lt]

/-- Witness for C6 at (105, 100). -/
theorem c6_compare_value_witness :
    (_compare_value 105 100).2.1 = (105 - 100) / 100 * 100 :=
  (c6_compare_value 105 100).2.2.1 (by norm_num)

/-- C7 counterexample: the code converts a comma to a decimal point instead
of stripping it, so the cell `"1,234"` coerces to 1.234, while the claimed
thousands-separator stripping would give 1234. -/
theorem c7_comma_counterexample :
    _safe_float (.str "1,234") = 617 / 500
    ∧ claimSafeFloat (.str "1,234") = 1234
    ∧ _safe_float (.str "1,234") ≠ claimSafeFloat (.str "1,234") := by
  refine ⟨by decide, by decide, by decide⟩

/-- C7 amended: the coercion is total — a missing value gives 0, string
values have spaces, currency signs and percent signs removed and commas
converted to decimal points before parsing, and an unparsable value gives
0 instead of an exception. -/
theorem c7_safe_float_amended (c : Cell) :
    _safe_float c = amendedSafeFloat c
    ∧ _safe_float Cell.na = 0
    ∧ _safe_float (.str "1 234") = 1234
    ∧ _safe_float (.str "56,7%") = 567 / 10
    ∧ _safe_float (.str "89₽") = 89
    ∧ _safe_float (.str "abc") = 0 := by
  refine ⟨?_, by decide, by decide, by decide, by decide, by decide⟩
  cases c with
  | na => rfl
  | num q => rfl
  | str s => simp [_safe_float, amendedSafeFloat, cleanChars_eq]

/-- C9 counterexample: on an unreadable CSV the loader raises a plain
`Exception` wrapping the cause, which is not one of the typed failures
(`AggregationError`/`ParseError`) the claim names. -/
theorem c9_untyped_counterexample :
    load_from_csv (Except.error "no such file")
      = Except.error (PyError.exception "Ошибка чтения CSV: no such file")
    ∧ isTypedFailure (PyError.exception "Ошибка чтения CSV: no such file") = false :=
  ⟨rfl, rfl⟩

/-- C9 amended: an unreadable input is surfaced to the caller as a raised
failure (a plain `Exception` wrapping the cause message), never as an
empty-but-successful result, so the caller can distinguish zero records
from unreadable input; readable inputs pass through (a JSON dict payload is
wrapped in a singleton list). -/
theorem c9_failure_surfaced :
    (∀ e : String, load_from_csv (Except.error e)
        = Except.error (PyError.exception ("Ошибка чтения CSV: " ++ e)))
    ∧ (∀ recs : List RecordDict, load_from_csv (Except.ok recs) = Except.ok recs)
    ∧ (∀ e : String, load_from_json (Except.error e)
        = Except.error (PyError.exception ("Ошибка чтения JSON: " ++ e)))
    ∧ (∀ d : RecordDict, load_from_json (Except.ok (JsonData.obj d)) = Except.ok [d])
    ∧ (∀ l : List RecordDict, load_from_json (Except.ok (JsonData.arr l)) = Except.ok l) :=
  ⟨fun _ => rfl, fun _ => rfl, fun _ => rfl, fun _ => rfl, fun _ => rfl⟩

/-- C10: the API-path guard tests falsiness, so an nm_id of 0 is skipped
exactly like a missing or None nm_id and the key 0 never appears in the
aggregate, while a record with nm_id -1 is not skipped and does create a
bucket. -/
theorem c10_falsy_guard :
    (∀ (m : List (ℤ × ApiBucket)) (r : ApiRow), r.nm_id = some 0 → apiStep m r = m)
    ∧ (∀ (m : List (ℤ × ApiBucket)) (r : ApiRow), r.nm_id = none → apiStep m r = m)
    ∧ (∀ rows : List ApiRow, List.lookup 0 (apiAggregate rows) = none)
    ∧ (∀ (rows : List ApiRow) (r : ApiRow), r ∈ rows → r.nm_id = some (-1) →
        (List.lookup (-1) (apiAggregate rows)).isSome = true) := by
  refine ⟨?_, ?_, ?_, ?_⟩
  · intro m r h; simp [apiStep, h]
  · intro m r h; simp [apiStep, h]
  · intro rows
    have h := apiAgg_lookup_zero_aux rows []
    simpa [apiAggregate, List.lookup] using h
  · intro rows r hmem hid
    have h := apiAgg_isSome_aux rows (-1) (by norm_num) []
    unfold apiAggregate
    rw [h]
    simp only [List.lookup, Option.isSome_none, Bool.false_or]
    exact List.any_eq_true.mpr ⟨r, hmem, by simp [hid]⟩

/-- Witness for C10: the single -1 record yields a bucket for -1. -/
theorem c10_falsy_guard_witness :
    (List.lookup (-1) (apiAggregate [exNeg1Row])).isSome = true :=
  c10_falsy_guard.2.2.2 [exNeg1Row] exNeg1Row (by simp) rfl

end Proofs

end WB
